import Mathlib

/-!
Shallow embedding of the tenant isolation and lifecycle control plane of the
hrms-saas backend.

Sources embedded:
- src/backend/app/models/tenant.py      (Tenant, TenantStatus, TenantPlan,
  BillingCycle, TenantSubscriptionHistory, TenantUsageLog)
- src/backend/app/models/subscription.py (SubscriptionPlan)
- src/backend/app/services/tenant_service.py (TenantService)
- src/backend/app/core/database.py      (TenantDatabaseManager)

Modelling conventions:
- Dates are modelled as natural numbers (days); `date.today()` is passed in as
  an explicit `today : Nat` argument.
- Decimal money is modelled as `Int`.
- JSONB lists and dicts are modelled as `List String` / `List (String × Bool)`.
- A database session is modelled by explicit state passing on a `DB` record;
  `session.commit()` corresponds to returning the updated `DB`,
  `session.rollback()` to returning the incoming `DB` unchanged.  Operations
  that can raise return `Except ServiceError α × DB`.
- SQLAlchemy's declarative constructor accepts only declared class
  attributes as keyword arguments and raises TypeError for any other name
  (`declarative_base()` in core/database.py; no model defines a custom
  `__init__`); such a call is embedded as the `constructorTypeError` error.
  Instance attribute assignment (`tenant.trial_end_date = ...`) is a plain
  setattr and always succeeds.
- Fields of the SQLAlchemy models that no claim or operation touches
  (branding, integrations, compliance, analytics counters, ...) are omitted;
  every field the tenant service reads or writes is present.
- `tenant.trial_end_date` in the service is a plain Python attribute, distinct
  from the mapped column `trial_ends_at` declared in models/tenant.py
  (line 76, "Tests expect these field names").  Both are modelled as separate
  fields so assignments land exactly where the source puts them.
-/

/-- TenantStatus enumeration (models/tenant.py lines 16-24). -/
inductive TenantStatus
  | active
  | pending
  | inactive
  | suspended
  | trial
  | expired
  | cancelled
deriving DecidableEq, Repr

/-- TenantPlan enumeration (models/tenant.py lines 27-33). -/
inductive TenantPlan
  | free
  | basic
  | professional
  | enterprise
  | custom
deriving DecidableEq, Repr

/-- The `.value` of a TenantPlan enum member. -/
def TenantPlan.value : TenantPlan → String
  | .free => "free"
  | .basic => "basic"
  | .professional => "professional"
  | .enterprise => "enterprise"
  | .custom => "custom"

/-- All members of the TenantPlan enumeration. -/
def TenantPlan.members : List TenantPlan :=
  [.free, .basic, .professional, .enterprise, .custom]

/-- `TenantPlan(s)`: Python enum lookup by value; raises (returns `none`)
when `s` is not the value of any member. -/
def TenantPlan.ofValue? (s : String) : Option TenantPlan :=
  TenantPlan.members.find? (fun p => p.value == s)

/-- BillingCycle enumeration (models/tenant.py lines 36-41). -/
inductive BillingCycle
  | monthly
  | quarterly
  | yearly
  | custom
deriving DecidableEq, Repr

/-- SubscriptionPlan catalog row (models/subscription.py, class
SubscriptionPlan): the columns the tenant service reads.  `plan_type` is kept
as the raw string the service compares against. -/
structure SubscriptionPlan where
  plan_type : String
  is_active : Bool := true
  max_users : Nat := 5
  max_employees : Nat := 50
  max_storage_gb : Nat := 1
  enabled_modules : List String := []
  feature_flags : List (String × Bool) := []
  monthly_price : Int := 0
  trial_days : Nat := 0
  support_tier : String := "basic"
deriving DecidableEq, Repr

/-- Tenant row (models/tenant.py, class Tenant).  Field defaults are the
SQLAlchemy column defaults.  `trial_end_date` is the plain (non-column)
attribute assigned by the service; `trial_ends_at` is the mapped column.
The model declares no `trial_days` attribute at all — the service's
constructor keyword of that name is invalid (see create_tenant below). -/
structure Tenant where
  id : Nat
  name : String
  slug : String
  domain : Option String := none
  subdomain : Option String := none
  contact_email : String
  contact_phone : Option String := none
  company_name : Option String := none
  company_size : Option String := none
  industry : Option String := none
  website : Option String := none
  plan : TenantPlan := .free
  status : TenantStatus := .active
  billing_cycle : BillingCycle := .monthly
  trial_ends_at : Option Nat := none
  subscription_ends_at : Option Nat := none
  trial_end_date : Option Nat := none
  max_users : Nat := 10
  max_employees : Nat := 50
  max_storage_gb : Nat := 1
  current_users : Nat := 0
  current_employees : Nat := 0
  current_storage_gb : Int := 0
  enabled_modules : List String := []
  feature_flags : List (String × Bool) := []
  monthly_rate : Int := 0
  support_tier : String := "basic"
  timezone : String := "UTC"
  locale : String := "en-US"
  currency : String := "USD"
  notes : Option String := none
deriving DecidableEq, Repr

/-- Tenant.has_module_access (models/tenant.py lines 179-181):
`return module in self.enabled_modules`. -/
def Tenant.has_module_access (t : Tenant) (module : String) : Bool :=
  decide (module ∈ t.enabled_modules)

/-- TenantSubscriptionHistory row (models/tenant.py lines 254-268). -/
structure TenantSubscriptionHistory where
  tenant_id : Nat
  old_plan : Option String := none
  new_plan : String
  change_reason : Option String := none
  initiated_by : Option String := none
deriving DecidableEq, Repr

/-- TenantUsageLog row (models/tenant.py lines 299-315). -/
structure TenantUsageLog where
  tenant_id : Nat
  log_date : Nat
  resource_type : String
  resource_id : Option String := none
  action : String
  quantity : Int := 1
deriving DecidableEq, Repr

/-- User row (models/user.py): the columns the tenant service touches. -/
structure UserRow where
  id : Nat
  username : String
  email : String
  first_name : String := "Admin"
  last_name : String := "User"
  is_active : Bool := true
  is_verified : Bool := true
  tenant_id : Nat
deriving DecidableEq, Repr

/-- Role row (models/user.py, class Role): the columns relevant here.  The
model declares no tenant_id column. -/
structure RoleRow where
  id : Nat
  name : String
deriving DecidableEq, Repr

/-- UserRole association row (models/user.py, class UserRole): the columns
relevant here.  The model declares no tenant_id column. -/
structure UserRoleRow where
  user_id : Nat
  role_id : Nat
deriving DecidableEq, Repr

/-- Employee row (models/employee.py): the columns `_get_employee_count`
filters on. -/
structure EmployeeRow where
  id : Nat
  tenant_id : Nat
  employment_status : String := "active"
deriving DecidableEq, Repr

/-- The persistent state reachable through `get_session`: the shared public
schema tables plus the set of per-tenant schemas that exist in the database.
`next_id` models the primary-key sequence consulted at `session.flush()`. -/
structure DB where
  tenants : List Tenant := []
  plans : List SubscriptionPlan := []
  history : List TenantSubscriptionHistory := []
  usage_logs : List TenantUsageLog := []
  users : List UserRow := []
  roles : List RoleRow := []
  user_roles : List UserRoleRow := []
  employees : List EmployeeRow := []
  schemas : List String := []
  next_id : Nat := 1
deriving DecidableEq, Repr

/-- Exceptions the tenant service raises: `ValueError(...)` for unknown
plans and tenants, and the TypeError that SQLAlchemy's declarative
constructor raises when a keyword argument (recorded here) is not a declared
attribute of the model. -/
inductive ServiceError
  | invalidPlan (plan_type : String)
  | tenantNotFound (tenant_id : Nat)
  | constructorTypeError (kwarg : String)
deriving DecidableEq, Repr

/-- TenantDatabaseManager.create_tenant_schema (core/database.py lines
154-159): `CREATE SCHEMA IF NOT EXISTS "tenant_id"`, committed at once.  The
statement never errors on an existing schema: it is create-if-absent. -/
def TenantDatabaseManager.create_tenant_schema
    (schemas : List String) (tenant_id : String) : List String :=
  if tenant_id ∈ schemas then schemas else tenant_id :: schemas

/-- TenantService._get_subscription_plan (tenant_service.py lines 358-366):
first active catalog row whose `plan_type` equals the requested string. -/
def TenantService.get_subscription_plan
    (plans : List SubscriptionPlan) (plan_type : String) :
    Option SubscriptionPlan :=
  plans.find? (fun p => p.plan_type == plan_type && p.is_active)

/-- TenantService._get_tenant_by_id (tenant_service.py lines 368-373). -/
def TenantService.get_tenant_by_id
    (tenants : List Tenant) (tenant_id : Nat) : Option Tenant :=
  tenants.find? (fun t => t.id == tenant_id)

/-- The tenant-organization input of create_tenant (`tenant_data` dict). -/
structure TenantData where
  name : String
  slug : String
  domain : Option String := none
  subdomain : Option String := none
  contact_email : String
  contact_phone : Option String := none
  company_name : Option String := none
  company_size : Option String := none
  industry : Option String := none
  website : Option String := none
  timezone : Option String := none
  locale : Option String := none
  currency : Option String := none
deriving DecidableEq, Repr

/-- The admin-user input of create_tenant (`admin_user_data` dict). -/
structure AdminUserData where
  username : String
  email : String
  first_name : Option String := none
  last_name : Option String := none
deriving DecidableEq, Repr

/-- TenantService.create_tenant (tenant_service.py lines 27-106).  Resolves
the plan (ValueError when unknown or inactive), then evaluates the
constructor arguments of `Tenant(...)` — among them `TenantPlan(plan_type)`,
which raises ValueError when the string is no member value — and makes the
constructor call, which passes `trial_days=plan.trial_days` (line 72).
`trial_days` is not an attribute of the Tenant model (models/tenant.py
declares `trial_ends_at`, line 76, and no `trial_days`), and SQLAlchemy's
declarative constructor raises TypeError for any keyword argument that is
not a declared class attribute.  So every call raises before `session.add`,
before the flush and before `create_tenant_schema`; the except block rolls
the session back and re-raises, and nothing is persisted.  The rest of the
body — the trial-date branch, schema creation, `_create_admin_user` (whose
`Role(tenant_id=...)` and `UserRole(tenant_id=...)` constructors would raise
the same TypeError, models/user.py declaring no such columns),
`_create_default_roles` and the commit — is unreachable and therefore not
embedded. -/
def TenantService.create_tenant
    (db : DB) (_tenant_data : TenantData) (_admin_user_data : AdminUserData)
    (plan_type : String) : Except ServiceError (Tenant × UserRow) × DB :=
  match TenantService.get_subscription_plan db.plans plan_type with
  | none => (.error (.invalidPlan plan_type), db)
  | some _plan =>
    match TenantPlan.ofValue? plan_type with
    | none => (.error (.invalidPlan plan_type), db)
    | some _plan_enum =>
      (.error (.constructorTypeError "trial_days"), db)

/-- TenantService.update_tenant_subscription (tenant_service.py lines
108-174): looks up tenant and new plan, copies quotas/modules/flags/rate/tier
from the new plan, (re)starts the trial window when the new plan has a
positive trial and the tenant is not already in TRIAL, appends one
TenantSubscriptionHistory row and commits. -/
def TenantService.update_tenant_subscription
    (db : DB) (tenant_id : Nat) (new_plan_type : String)
    (change_reason : Option String) (initiated_by : Option String)
    (today : Nat) : Except ServiceError Tenant × DB :=
  match TenantService.get_tenant_by_id db.tenants tenant_id with
  | none => (.error (.tenantNotFound tenant_id), db)
  | some tenant =>
    match TenantService.get_subscription_plan db.plans new_plan_type with
    | none => (.error (.invalidPlan new_plan_type), db)
    | some new_plan =>
      match TenantPlan.ofValue? new_plan_type with
      | none => (.error (.invalidPlan new_plan_type), db)
      | some plan_enum =>
        let old_plan := tenant.plan.value
        let t1 : Tenant :=
          { tenant with
              plan := plan_enum
              max_users := new_plan.max_users
              max_employees := new_plan.max_employees
              max_storage_gb := new_plan.max_storage_gb
              enabled_modules := new_plan.enabled_modules
              feature_flags := new_plan.feature_flags
              monthly_rate := new_plan.monthly_price
              support_tier := new_plan.support_tier }
        let t2 : Tenant :=
          if 0 < new_plan.trial_days ∧ t1.status ≠ TenantStatus.trial then
            { t1 with
                trial_end_date := some (today + new_plan.trial_days)
                status := .trial }
          else t1
        let subscription_history : TenantSubscriptionHistory :=
          { tenant_id := tenant_id
            old_plan := some old_plan
            new_plan := new_plan_type
            change_reason := change_reason
            initiated_by := initiated_by }
        (.ok t2,
          { db with
              tenants := db.tenants.map
                (fun u => if u.id == tenant_id then t2 else u)
              history := db.history ++ [subscription_history] })

/-- TenantService.suspend_tenant (tenant_service.py lines 176-189): sets
status SUSPENDED and an audit note, commits. -/
def TenantService.suspend_tenant
    (db : DB) (tenant_id : Nat) (reason : String) :
    Except ServiceError Tenant × DB :=
  match TenantService.get_tenant_by_id db.tenants tenant_id with
  | none => (.error (.tenantNotFound tenant_id), db)
  | some tenant =>
    let t : Tenant :=
      { tenant with
          status := .suspended
          notes := some ("Suspended: " ++ reason) }
    (.ok t,
      { db with
          tenants := db.tenants.map
            (fun u => if u.id == tenant_id then t else u) })

/-- TenantService.activate_tenant (tenant_service.py lines 191-204): sets
status ACTIVE and an audit note, commits; there is no check of the previous
status. -/
def TenantService.activate_tenant
    (db : DB) (tenant_id : Nat) : Except ServiceError Tenant × DB :=
  match TenantService.get_tenant_by_id db.tenants tenant_id with
  | none => (.error (.tenantNotFound tenant_id), db)
  | some tenant =>
    let t : Tenant :=
      { tenant with
          status := .active
          notes := some "Account activated" }
    (.ok t,
      { db with
          tenants := db.tenants.map
            (fun u => if u.id == tenant_id then t else u) })

/-- TenantService._get_user_count (tenant_service.py lines 469-477). -/
def TenantService.get_user_count (db : DB) (tenant_id : Nat) : Nat :=
  (db.users.filter (fun u => u.tenant_id == tenant_id && u.is_active)).length

/-- TenantService._get_employee_count (tenant_service.py lines 479-488). -/
def TenantService.get_employee_count (db : DB) (tenant_id : Nat) : Nat :=
  (db.employees.filter
    (fun e => e.tenant_id == tenant_id && e.employment_status == "active")).length

/-- The counters and quotas returned by get_tenant_usage.  The derived
floating-point `usage_percentage` entries are not modelled (floats). -/
structure UsageStats where
  current_users : Nat
  current_employees : Nat
  current_storage_gb : Int
  max_users : Nat
  max_employees : Nat
  max_storage_gb : Nat
deriving DecidableEq, Repr

/-- TenantService.get_tenant_usage (tenant_service.py lines 206-232): a pure
read; it writes nothing and commits nothing, so the state comes back
unchanged. -/
def TenantService.get_tenant_usage
    (db : DB) (tenant_id : Nat) : Except ServiceError UsageStats × DB :=
  match TenantService.get_tenant_by_id db.tenants tenant_id with
  | none => (.error (.tenantNotFound tenant_id), db)
  | some tenant =>
    (.ok
      { current_users := TenantService.get_user_count db tenant_id
        current_employees := TenantService.get_employee_count db tenant_id
        current_storage_gb := tenant.current_storage_gb
        max_users := tenant.max_users
        max_employees := tenant.max_employees
        max_storage_gb := tenant.max_storage_gb }, db)

/-- TenantService.check_module_access (tenant_service.py lines 234-242):
`none` from the lookup returns False; otherwise defers to
Tenant.has_module_access.  No exception is raised for an unknown tenant and
the tenant's status is not consulted. -/
def TenantService.check_module_access
    (db : DB) (tenant_id : Nat) (module : String) : Bool :=
  match TenantService.get_tenant_by_id db.tenants tenant_id with
  | none => false
  | some tenant => tenant.has_module_access module

/-!
Partition Router (core/database.py, class TenantDatabaseManager, lines
101-146): the per-tenant engine and session-factory caches.

Concurrency model: the service runs on a single asyncio event loop; a task
can only be preempted at an `await` that actually suspends.  The body of
`get_tenant_engine` contains no `await` at all (`create_async_engine` is a
synchronous constructor), and `get_tenant_session`'s cache-miss path only
awaits `get_tenant_engine`, whose body never suspends; so the whole
check-then-install section of either method runs without interleaving.  Each
call is therefore modelled as one atomic transition on `RouterState`, and N
concurrent calls as an arbitrary sequential ordering of N such transitions.

Engines and session factories are identified by the numbers handed out by
`next_engine`; `engines_created` logs one entry per `create_async_engine`
call (one constructed pool), so leaked duplicate pools would show up as a
slug occurring twice in it.
-/

/-- The mutable state of the global `tenant_db_manager`. -/
structure RouterState where
  tenant_engines : List (String × Nat) := []
  tenant_session_makers : List (String × Nat) := []
  engines_created : List String := []
  next_engine : Nat := 0
deriving DecidableEq, Repr

/-- The cached engine for a slug, if any (`tenant_id in self.tenant_engines`
plus the dictionary read). -/
def RouterState.engineFor? (st : RouterState) (tenant_id : String) :
    Option (String × Nat) :=
  st.tenant_engines.find? (fun p => p.1 == tenant_id)

/-- The cached session factory for a slug, if any. -/
def RouterState.makerFor? (st : RouterState) (tenant_id : String) :
    Option (String × Nat) :=
  st.tenant_session_makers.find? (fun p => p.1 == tenant_id)

/-- TenantDatabaseManager.get_tenant_engine (core/database.py lines 108-122):
on a cache miss, constructs one engine (pool) and installs it under the
slug; on a hit, returns the cached engine. -/
def TenantDatabaseManager.get_tenant_engine
    (st : RouterState) (tenant_id : String) : Nat × RouterState :=
  match st.engineFor? tenant_id with
  | some p => (p.2, st)
  | none =>
    let e := st.next_engine
    (e,
      { st with
          tenant_engines := (tenant_id, e) :: st.tenant_engines
          engines_created := tenant_id :: st.engines_created
          next_engine := e + 1 })

/-- TenantDatabaseManager.get_tenant_session (core/database.py lines
124-146): on a session-factory cache miss, obtains the tenant engine (creating
it if absent) and installs a factory bound to it; then yields a session from
the cached factory.  The session value is the bound engine number. -/
def TenantDatabaseManager.get_tenant_session
    (st : RouterState) (tenant_id : String) : Nat × RouterState :=
  match st.makerFor? tenant_id with
  | some p => (p.2, st)
  | none =>
    let (e, st1) := TenantDatabaseManager.get_tenant_engine st tenant_id
    (e,
      { st1 with
          tenant_session_makers := (tenant_id, e) :: st1.tenant_session_makers })

/-- A sequence of `get_tenant_session` calls (one atomic step per call, see
the concurrency model above), returning the final router state. -/
def TenantDatabaseManager.run_sessions
    (st : RouterState) (calls : List String) : RouterState :=
  calls.foldl (fun s slug => (TenantDatabaseManager.get_tenant_session s slug).2) st

/-- TenantService.log_usage (tenant_service.py lines 262-286): appends one
TenantUsageLog row and commits. -/
def TenantService.log_usage
    (db : DB) (tenant_id : Nat) (resource_type : String) (action : String)
    (quantity : Int) (resource_id : Option String) (today : Nat) : DB :=
  { db with
      usage_logs := db.usage_logs ++
        [ { tenant_id := tenant_id
            log_date := today
            resource_type := resource_type
            resource_id := resource_id
            action := action
            quantity := quantity } ] }

/-!
Concrete fixtures for counterexamples and witnesses.  Plan values follow
DEFAULT_PLANS in models/subscription.py.
-/

/-- The free catalog plan (DEFAULT_PLANS entry "free"). -/
def freePlan : SubscriptionPlan :=
  { plan_type := "free"
    is_active := true
    max_users := 3
    max_employees := 10
    max_storage_gb := 1
    enabled_modules := ["core", "employees", "departments"]
    feature_flags := []
    monthly_price := 0
    trial_days := 0
    support_tier := "community" }

/-- The basic catalog plan (DEFAULT_PLANS entry "basic"). -/
def basicPlan : SubscriptionPlan :=
  { plan_type := "basic"
    is_active := true
    max_users := 10
    max_employees := 50
    max_storage_gb := 5
    enabled_modules := ["core", "employees", "departments", "leave", "attendance"]
    feature_flags := []
    monthly_price := 29
    trial_days := 14
    support_tier := "email" }

/-- The enterprise catalog plan (DEFAULT_PLANS entry "enterprise"). -/
def enterprisePlan : SubscriptionPlan :=
  { plan_type := "enterprise"
    is_active := true
    max_users := 100
    max_employees := 1000
    max_storage_gb := 100
    enabled_modules := ["core", "employees", "departments", "leave",
      "attendance", "payroll", "performance", "recruitment", "training",
      "documents"]
    feature_flags := []
    monthly_price := 199
    trial_days := 30
    support_tier := "dedicated" }

/-- A SUSPENDED tenant that still has modules in enabled_modules. -/
def acmeSuspended : Tenant :=
  { id := 1
    name := "Acme"
    slug := "acme"
    contact_email := "ops@acme.test"
    plan := .free
    status := .suspended
    max_users := 3
    max_employees := 10
    max_storage_gb := 1
    enabled_modules := ["core", "employees", "departments"] }

/-- A database holding the suspended tenant and the seeded catalog. -/
def sampleDB : DB :=
  { tenants := [acmeSuspended]
    plans := [freePlan, basicPlan, enterprisePlan]
    schemas := ["acme"]
    next_id := 2 }

/-- A database holding only the seeded catalog (no tenants yet). -/
def catalogDB : DB :=
  { plans := [freePlan, basicPlan, enterprisePlan], next_id := 1 }

/-- A tenant-creation request. -/
def newTenantData : TenantData :=
  { name := "Globex", slug := "globex", contact_email := "admin@globex.test" }

/-- An admin-user request accompanying the tenant creation. -/
def newAdminData : AdminUserData :=
  { username := "globex-admin", email := "admin@globex.test" }

/-- A CANCELLED tenant. -/
def umbraCancelled : Tenant :=
  { id := 1
    name := "Umbra"
    slug := "umbra"
    contact_email := "ops@umbra.test"
    plan := .free
    status := .cancelled
    enabled_modules := ["core"] }

/-- A database holding the cancelled tenant and the seeded catalog. -/
def cancelledDB : DB :=
  { tenants := [umbraCancelled]
    plans := [freePlan, basicPlan, enterprisePlan]
    schemas := ["umbra"]
    next_id := 2 }

/-- An ACTIVE tenant on the free plan. -/
def initechActive : Tenant :=
  { id := 7
    name := "Initech"
    slug := "initech"
    contact_email := "ops@initech.test"
    plan := .free
    status := .active
    max_users := 3
    max_employees := 10
    max_storage_gb := 1
    enabled_modules := ["core", "employees", "departments"] }

/-- A database holding the active tenant and the seeded catalog. -/
def lifecycleDB : DB :=
  { tenants := [initechActive]
    plans := [freePlan, basicPlan, enterprisePlan]
    schemas := ["initech"]
    next_id := 8 }

/-- Number of engine-cache entries installed under a slug. -/
def RouterState.enginesFor (st : RouterState) (s : String) : Nat :=
  (st.tenant_engines.filter (fun p => p.1 == s)).length

/-- Number of engines (pools) ever constructed for a slug. -/
def RouterState.createdFor (st : RouterState) (s : String) : Nat :=
  st.engines_created.count s

/-- Relations between the caches and the construction log for one slug that
every atomic router step preserves. -/
def RouterInv (s : String) (st : RouterState) : Prop :=
  st.enginesFor s = st.createdFor s ∧
  st.createdFor s ≤ 1 ∧
  ((st.engineFor? s).isSome ↔ st.createdFor s = 1) ∧
  ((st.makerFor? s).isSome → st.createdFor s = 1)

/-! Claim C10 -/

/-- C10: for a tenant id with no matching tenant row, check_module_access
returns false for every module: the lookup miss takes the `return False`
branch, and the function's type raises no tenant-not-found error. -/
theorem c10_check_module_access_unknown_tenant_false
    (db : DB) (tenant_id : Nat) (module : String)
    (h : TenantService.get_tenant_by_id db.tenants tenant_id = none) :
    TenantService.check_module_access db tenant_id module = false := by
  unfold TenantService.check_module_access
  rw [h]

/-- Witness for C10 at a concrete database and an id with no tenant row. -/
theorem c10_witness :
    TenantService.check_module_access sampleDB 42 "employees" = false :=
  c10_check_module_access_unknown_tenant_false sampleDB 42 "employees" (by decide)

/-! Claim C1 -/

/-- C1 counterexample: a SUSPENDED tenant whose enabled_modules contains
"employees" still passes check_module_access, contradicting the claim that
the check returns false for every module whenever the tenant is SUSPENDED. -/
theorem c1_counterexample_suspended_tenant_allowed :
    (TenantService.get_tenant_by_id sampleDB.tenants 1).map Tenant.status
      = some TenantStatus.suspended ∧
    TenantService.check_module_access sampleDB 1 "employees" = true := by
  decide

/-- C1 (amended): check_module_access(tenant_id, M) returns true iff a tenant
with that id exists and M is a member of its enabled_modules; the tenant's
status is never consulted, so a SUSPENDED tenant with M enabled is still
granted access. -/
theorem c1_check_module_access_iff
    (db : DB) (tenant_id : Nat) (module : String) :
    TenantService.check_module_access db tenant_id module = true ↔
      ∃ t, TenantService.get_tenant_by_id db.tenants tenant_id = some t ∧
        module ∈ t.enabled_modules := by
  unfold TenantService.check_module_access
  cases h : TenantService.get_tenant_by_id db.tenants tenant_id with
  | none => simp
  | some t => simp [Tenant.has_module_access]

/-! Claim C3 -/

/-- C3 (code evaluation): no create_tenant call ever reaches partition
creation: every call raises before `session.add` — ValueError when the plan
is unknown or inactive, ValueError from `TenantPlan(plan_type)` for a
non-member value, and otherwise the TypeError from the invalid `trial_days`
constructor keyword — so the partition-failure scenario the claim guards
against is unreachable.  The session rolls back, the error propagates, and
the state (tenant rows and schemas alike) is exactly the incoming one; in
particular no Tenant row is ever committed by create_tenant. -/
theorem c3_create_tenant_fails_before_partition
    (db : DB) (td : TenantData) (ad : AdminUserData) (pt : String) :
    (∃ e, (TenantService.create_tenant db td ad pt).1 = Except.error e) ∧
    (TenantService.create_tenant db td ad pt).2 = db := by
  unfold TenantService.create_tenant
  cases hplan : TenantService.get_subscription_plan db.plans pt with
  | none => exact ⟨⟨_, rfl⟩, rfl⟩
  | some plan =>
    cases henum : TenantPlan.ofValue? pt with
    | none => exact ⟨⟨_, rfl⟩, rfl⟩
    | some pe => exact ⟨⟨_, rfl⟩, rfl⟩

/-! Claim C6 -/

/-- C6: create_tenant_schema is an idempotent create-if-absent: a second call
with the same slug is a no-op on the state left by the first (and the
operation is total, so neither call errors), and starting from a state
without the slug the two calls leave exactly one entry for it. -/
theorem c6_create_tenant_schema_idempotent
    (schemas : List String) (slug : String) :
    TenantDatabaseManager.create_tenant_schema
        (TenantDatabaseManager.create_tenant_schema schemas slug) slug
      = TenantDatabaseManager.create_tenant_schema schemas slug ∧
    (slug ∉ schemas →
      (TenantDatabaseManager.create_tenant_schema
          (TenantDatabaseManager.create_tenant_schema schemas slug) slug).count
          slug = 1) := by
  unfold TenantDatabaseManager.create_tenant_schema
  by_cases h : slug ∈ schemas
  · simp [h]
  · simp [h, List.count_eq_zero.mpr h]

/-- Witness for C6 at a concrete empty schema set. -/
theorem c6_witness :
    TenantDatabaseManager.create_tenant_schema
        (TenantDatabaseManager.create_tenant_schema [] "acme") "acme"
      = TenantDatabaseManager.create_tenant_schema [] "acme" ∧
    (TenantDatabaseManager.create_tenant_schema
        (TenantDatabaseManager.create_tenant_schema [] "acme") "acme").count
        "acme" = 1 :=
  ⟨(c6_create_tenant_schema_idempotent [] "acme").1,
    (c6_create_tenant_schema_idempotent [] "acme").2 (by decide)⟩

/-! Claim C8 -/

/-- C8 counterexample: activate_tenant on a CANCELLED tenant succeeds and
moves its status to ACTIVE, so CANCELLED is not a terminal state. -/
theorem c8_counterexample_cancelled_not_terminal :
    (TenantService.get_tenant_by_id cancelledDB.tenants 1).map Tenant.status
      = some TenantStatus.cancelled ∧
    (TenantService.activate_tenant cancelledDB 1).1.toOption.map Tenant.status
      = some TenantStatus.active ∧
    TenantStatus.active ≠ TenantStatus.cancelled := by
  decide

/-- C8 (amended): CANCELLED is not terminal — lifecycle operations do not
guard on it: activate_tenant on any existing tenant, in particular a
CANCELLED one, succeeds and sets its status to ACTIVE. -/
theorem c8_activate_ignores_cancelled
    (db : DB) (tenant_id : Nat) (t : Tenant)
    (hfind : TenantService.get_tenant_by_id db.tenants tenant_id = some t)
    (_hc : t.status = TenantStatus.cancelled) :
    ∃ t', (TenantService.activate_tenant db tenant_id).1 = .ok t' ∧
      t'.status = TenantStatus.active := by
  unfold TenantService.activate_tenant
  rw [hfind]
  exact ⟨_, rfl, rfl⟩

/-- Witness for C8 (amended) at the concrete cancelled tenant. -/
theorem c8_witness :
    ∃ t', (TenantService.activate_tenant cancelledDB 1).1 = .ok t' ∧
      t'.status = TenantStatus.active :=
  c8_activate_ignores_cancelled cancelledDB 1 umbraCancelled
    (by decide) (by decide)

/-! Shared helper lemmas -/

/-- Enum lookup by value recovers the value string. -/
theorem TenantPlan.value_of_ofValue {s : String} {p : TenantPlan}
    (h : TenantPlan.ofValue? s = some p) : p.value = s := by
  unfold TenantPlan.ofValue? at h
  have hp := List.find?_some (p := fun q => TenantPlan.value q == s) h
  exact eq_of_beq hp

/-- Replacing the rows of one id leaves lookups of other ids unchanged. -/
theorem get_tenant_by_id_map_replace_other
    (l : List Tenant) (tid tid' : Nat) (t : Tenant)
    (hid : t.id = tid) (hne : tid' ≠ tid) :
    TenantService.get_tenant_by_id
        (l.map fun u => if u.id == tid then t else u) tid'
      = TenantService.get_tenant_by_id l tid' := by
  unfold TenantService.get_tenant_by_id
  induction l with
  | nil => rfl
  | cons a l ih =>
    simp only [List.map_cons]
    by_cases ha : a.id = tid
    · rw [if_pos (by simp [ha])]
      rw [List.find?_cons_of_neg _ (by simp [hid, Ne.symm hne]),
        List.find?_cons_of_neg _ (by simp [ha, Ne.symm hne])]
      exact ih
    · rw [if_neg (by simp [ha])]
      by_cases hb : a.id = tid'
      · rw [List.find?_cons_of_pos _ (by simp [hb]),
          List.find?_cons_of_pos _ (by simp [hb])]
      · rw [List.find?_cons_of_neg _ (by simp [hb]),
          List.find?_cons_of_neg _ (by simp [hb])]
        exact ih

/-- After replacing the rows of an id that a lookup found, looking the id up
again returns the replacement. -/
theorem get_tenant_by_id_map_replace_self
    (l : List Tenant) (tid : Nat) (t t0 : Tenant)
    (hfind : TenantService.get_tenant_by_id l tid = some t0)
    (hid : t.id = tid) :
    TenantService.get_tenant_by_id
        (l.map fun u => if u.id == tid then t else u) tid = some t := by
  unfold TenantService.get_tenant_by_id at hfind ⊢
  induction l with
  | nil => simp at hfind
  | cons a l ih =>
    simp only [List.map_cons]
    by_cases ha : a.id = tid
    · rw [if_pos (by simp [ha])]
      exact List.find?_cons_of_pos _ (by simp [hid])
    · rw [if_neg (by simp [ha])]
      rw [List.find?_cons_of_neg _ (by simp [ha])]
      rw [List.find?_cons_of_neg _ (by simp [ha])] at hfind
      exact ih hfind

/-! Claim C2 -/

/-- C2 (code evaluation at the failing input): create_tenant on the seeded
catalog with the free plan raises the constructor TypeError — `trial_days`
is an invalid keyword argument for Tenant — rolls back, and returns no
tenant, so the ACTIVE/TRIAL status and trial_ends_at values the claim states
for successful creations are never produced by any call. -/
theorem c2_create_tenant_raises_type_error :
    TenantService.create_tenant catalogDB newTenantData newAdminData "free"
      = (Except.error (ServiceError.constructorTypeError "trial_days"),
          catalogDB) := rfl

/-- A found tenant's id equals the id that was looked up. -/
theorem get_tenant_by_id_id {l : List Tenant} {tid : Nat} {t : Tenant}
    (h : TenantService.get_tenant_by_id l tid = some t) : t.id = tid := by
  unfold TenantService.get_tenant_by_id at h
  have hp := List.find?_some (p := fun u => Tenant.id u == tid) h
  exact eq_of_beq hp

/-! Claim C9 -/

/-- C9: suspend followed by activate touches only status and notes: the
tenant keeps its enabled_modules, plan, quotas and feature_flags, the schema
set is untouched, and every module granted before the suspension passes
check_module_access again after activation without any re-grant. -/
theorem c9_suspend_activate_frame
    (db : DB) (tid : Nat) (reason : String) (t : Tenant)
    (hfind : TenantService.get_tenant_by_id db.tenants tid = some t) :
    ∃ t2,
      TenantService.get_tenant_by_id
          ((TenantService.activate_tenant
              (TenantService.suspend_tenant db tid reason).2 tid).2).tenants tid
        = some t2 ∧
      t2.status = TenantStatus.active ∧
      t2.enabled_modules = t.enabled_modules ∧
      t2.plan = t.plan ∧
      t2.max_users = t.max_users ∧
      t2.max_employees = t.max_employees ∧
      t2.max_storage_gb = t.max_storage_gb ∧
      t2.feature_flags = t.feature_flags ∧
      ((TenantService.activate_tenant
          (TenantService.suspend_tenant db tid reason).2 tid).2).schemas
        = db.schemas ∧
      (∀ M, M ∈ t.enabled_modules →
        TenantService.check_module_access
          ((TenantService.activate_tenant
              (TenantService.suspend_tenant db tid reason).2 tid).2) tid M
          = true) := by
  have htid : t.id = tid := get_tenant_by_id_id hfind
  have hsusp : (TenantService.suspend_tenant db tid reason).2
      = { db with tenants := (db.tenants.map fun u =>
            if u.id == tid then
              { t with status := .suspended,
                       notes := some ("Suspended: " ++ reason) }
            else u) } := by
    unfold TenantService.suspend_tenant
    rw [hfind]
  have hfind1 : TenantService.get_tenant_by_id
      ((TenantService.suspend_tenant db tid reason).2).tenants tid
      = some { t with status := .suspended,
                      notes := some ("Suspended: " ++ reason) } := by
    rw [hsusp]
    exact get_tenant_by_id_map_replace_self db.tenants tid _ t hfind htid
  have hact : (TenantService.activate_tenant
      (TenantService.suspend_tenant db tid reason).2 tid).2
      = { (TenantService.suspend_tenant db tid reason).2 with
          tenants := (((TenantService.suspend_tenant db tid reason).2).tenants.map
            fun u =>
              if u.id == tid then
                { t with status := .active,
                         notes := some "Account activated" }
              else u) } := by
    unfold TenantService.activate_tenant
    rw [hfind1]
  have hfind2 : TenantService.get_tenant_by_id
      ((TenantService.activate_tenant
          (TenantService.suspend_tenant db tid reason).2 tid).2).tenants tid
      = some { t with status := .active, notes := some "Account activated" } := by
    rw [hact]
    exact get_tenant_by_id_map_replace_self _ tid _ _ hfind1 htid
  refine ⟨_, hfind2, rfl, rfl, rfl, rfl, rfl, rfl, rfl, ?_, ?_⟩
  · rw [hact, hsusp]
  · intro M hM
    unfold TenantService.check_module_access
    rw [hfind2]
    unfold Tenant.has_module_access
    exact decide_eq_true hM

/-- Witness for C9 at the concrete active tenant. -/
theorem c9_witness :
    ∃ t2,
      TenantService.get_tenant_by_id
          ((TenantService.activate_tenant
              (TenantService.suspend_tenant lifecycleDB 7 "overdue").2 7).2).tenants 7
        = some t2 ∧
      t2.status = TenantStatus.active ∧
      t2.enabled_modules = initechActive.enabled_modules ∧
      t2.plan = initechActive.plan ∧
      t2.max_users = initechActive.max_users ∧
      t2.max_employees = initechActive.max_employees ∧
      t2.max_storage_gb = initechActive.max_storage_gb ∧
      t2.feature_flags = initechActive.feature_flags ∧
      ((TenantService.activate_tenant
          (TenantService.suspend_tenant lifecycleDB 7 "overdue").2 7).2).schemas
        = lifecycleDB.schemas ∧
      (∀ M, M ∈ initechActive.enabled_modules →
        TenantService.check_module_access
          ((TenantService.activate_tenant
              (TenantService.suspend_tenant lifecycleDB 7 "overdue").2 7).2) 7 M
          = true) :=
  c9_suspend_activate_frame lifecycleDB 7 "overdue" initechActive (by decide)

/-! Claim C4 -/

/-- C4: every successful update_tenant_subscription call appends exactly one
TenantSubscriptionHistory row, whose old_plan is the tenant's plan value
before the call and whose new_plan is the requested plan type verbatim; and
no other lifecycle operation (create_tenant, suspend, activate, log_usage)
touches the history ledger. -/
theorem c4_subscription_history_ledger :
    (∀ (db : DB) (tid : Nat) (npt : String) (cr ib : Option String)
        (today : Nat) (old : Tenant),
      TenantService.get_tenant_by_id db.tenants tid = some old →
      (∃ t, (TenantService.update_tenant_subscription db tid npt cr ib today).1
          = .ok t) →
      ((TenantService.update_tenant_subscription db tid npt cr ib today).2).history
        = db.history ++
          [{ tenant_id := tid
             old_plan := some old.plan.value
             new_plan := npt
             change_reason := cr
             initiated_by := ib }]) ∧
    (∀ (db : DB) (td : TenantData) (ad : AdminUserData) (pt : String),
      ((TenantService.create_tenant db td ad pt).2).history = db.history) ∧
    (∀ (db : DB) (tid : Nat) (reason : String),
      ((TenantService.suspend_tenant db tid reason).2).history = db.history) ∧
    (∀ (db : DB) (tid : Nat),
      ((TenantService.activate_tenant db tid).2).history = db.history) ∧
    (∀ (db : DB) (tid : Nat) (rt ac : String) (q : Int)
        (rid : Option String) (today : Nat),
      (TenantService.log_usage db tid rt ac q rid today).history = db.history) := by
  refine ⟨?_, ?_, ?_, ?_, ?_⟩
  · intro db tid npt cr ib today old hfind hok
    unfold TenantService.update_tenant_subscription at hok ⊢
    rw [hfind] at hok ⊢
    cases hplan : TenantService.get_subscription_plan db.plans npt with
    | none => rw [hplan] at hok; simp at hok
    | some np =>
      rw [hplan] at hok
      cases henum : TenantPlan.ofValue? npt with
      | none => rw [henum] at hok; simp at hok
      | some pe => rfl
  · intro db td ad pt
    unfold TenantService.create_tenant
    cases hplan : TenantService.get_subscription_plan db.plans pt with
    | none => rfl
    | some plan =>
      cases henum : TenantPlan.ofValue? pt with
      | none => rfl
      | some pe => rfl
  · intro db tid reason
    unfold TenantService.suspend_tenant
    cases hfind : TenantService.get_tenant_by_id db.tenants tid with
    | none => rfl
    | some t => rfl
  · intro db tid
    unfold TenantService.activate_tenant
    cases hfind : TenantService.get_tenant_by_id db.tenants tid with
    | none => rfl
    | some t => rfl
  · intro db tid rt ac q rid today
    rfl

/-- Witness for C4: a concrete successful plan change appends exactly the
expected ledger row. -/
theorem c4_witness :
    ((TenantService.update_tenant_subscription lifecycleDB 7 "enterprise"
        none none 100).2).history
      = lifecycleDB.history ++
        [{ tenant_id := 7
           old_plan := some initechActive.plan.value
           new_plan := "enterprise"
           change_reason := none
           initiated_by := none }] :=
  c4_subscription_history_ledger.1 lifecycleDB 7 "enterprise" none none 100
    initechActive (by decide) ⟨_, rfl⟩

/-! Claim C5 -/

/-- C5 (code evaluation): after a successful update_tenant_subscription the
tenant's enabled_modules is a subset (a verbatim copy) of the
enabled_modules of the catalog plan its plan field references; create_tenant
installs no tenant at all — every call raises at the Tenant constructor
before session.add, leaving the tenant table unchanged — so creation never
produces any tenant, compliant or not; and neither suspend, activate,
get_tenant_usage nor log_usage changes any tenant's enabled_modules. -/
theorem c5_enabled_modules_subset_of_plan :
    (∀ (db : DB) (td : TenantData) (ad : AdminUserData) (pt : String),
      ((TenantService.create_tenant db td ad pt).2).tenants = db.tenants) ∧
    (∀ (db : DB) (tid : Nat) (npt : String) (cr ib : Option String)
        (today : Nat) (old : Tenant) (np : SubscriptionPlan) (pe : TenantPlan),
      TenantService.get_tenant_by_id db.tenants tid = some old →
      TenantService.get_subscription_plan db.plans npt = some np →
      TenantPlan.ofValue? npt = some pe →
      ∃ t, (TenantService.update_tenant_subscription db tid npt cr ib today).1
          = .ok t ∧
        ∃ p, TenantService.get_subscription_plan
              ((TenantService.update_tenant_subscription db tid npt cr ib
                  today).2).plans t.plan.value = some p ∧
          t.enabled_modules ⊆ p.enabled_modules) ∧
    (∀ (db : DB) (tid : Nat) (reason : String) (tid' : Nat),
      (TenantService.get_tenant_by_id
          ((TenantService.suspend_tenant db tid reason).2).tenants tid').map
          Tenant.enabled_modules
        = (TenantService.get_tenant_by_id db.tenants tid').map
            Tenant.enabled_modules) ∧
    (∀ (db : DB) (tid tid' : Nat),
      (TenantService.get_tenant_by_id
          ((TenantService.activate_tenant db tid).2).tenants tid').map
          Tenant.enabled_modules
        = (TenantService.get_tenant_by_id db.tenants tid').map
            Tenant.enabled_modules) ∧
    (∀ (db : DB) (tid : Nat) (rt ac : String) (q : Int)
        (rid : Option String) (today : Nat),
      (TenantService.log_usage db tid rt ac q rid today).tenants
        = db.tenants) ∧
    (∀ (db : DB) (tid : Nat),
      (TenantService.get_tenant_usage db tid).2 = db) := by
  refine ⟨?_, ?_, ?_, ?_, ?_, ?_⟩
  · intro db td ad pt
    unfold TenantService.create_tenant
    cases hplan : TenantService.get_subscription_plan db.plans pt with
    | none => rfl
    | some plan =>
      cases henum : TenantPlan.ofValue? pt with
      | none => rfl
      | some pe => rfl
  · intro db tid npt cr ib today old np pe hfind hplan henum
    have hv : pe.value = npt := TenantPlan.value_of_ofValue henum
    unfold TenantService.update_tenant_subscription
    rw [hfind, hplan, henum]
    refine ⟨_, rfl, np, ?_, ?_⟩
    · simp only [apply_ite TenantPlan.value, apply_ite Tenant.plan, ite_self]
      rw [hv]
      exact hplan
    · simp only [apply_ite Tenant.enabled_modules, ite_self]
      exact fun x hx => hx
  · intro db tid reason tid'
    cases hfind : TenantService.get_tenant_by_id db.tenants tid with
    | none =>
      unfold TenantService.suspend_tenant
      rw [hfind]
    | some t =>
      have htid : t.id = tid := get_tenant_by_id_id hfind
      have hsusp : ((TenantService.suspend_tenant db tid reason).2).tenants
          = (db.tenants.map fun u =>
              if u.id == tid then
                { t with status := .suspended,
                         notes := some ("Suspended: " ++ reason) }
              else u) := by
        unfold TenantService.suspend_tenant
        rw [hfind]
      rw [hsusp]
      by_cases h : tid' = tid
      · subst h
        rw [get_tenant_by_id_map_replace_self db.tenants tid'
            { t with status := .suspended,
                     notes := some ("Suspended: " ++ reason) } t hfind htid,
          hfind]
        rfl
      · rw [get_tenant_by_id_map_replace_other db.tenants tid tid'
            { t with status := .suspended,
                     notes := some ("Suspended: " ++ reason) } htid h]
  · intro db tid tid'
    cases hfind : TenantService.get_tenant_by_id db.tenants tid with
    | none =>
      unfold TenantService.activate_tenant
      rw [hfind]
    | some t =>
      have htid : t.id = tid := get_tenant_by_id_id hfind
      have hact : ((TenantService.activate_tenant db tid).2).tenants
          = (db.tenants.map fun u =>
              if u.id == tid then
                { t with status := .active,
                         notes := some "Account activated" }
              else u) := by
        unfold TenantService.activate_tenant
        rw [hfind]
      rw [hact]
      by_cases h : tid' = tid
      · subst h
        rw [get_tenant_by_id_map_replace_self db.tenants tid'
            { t with status := .active,
                     notes := some "Account activated" } t hfind htid,
          hfind]
        rfl
      · rw [get_tenant_by_id_map_replace_other db.tenants tid tid'
            { t with status := .active,
                     notes := some "Account activated" } htid h]
  · intro db tid rt ac q rid today
    rfl
  · intro db tid
    unfold TenantService.get_tenant_usage
    cases hfind : TenantService.get_tenant_by_id db.tenants tid with
    | none => rfl
    | some t => rfl

/-- Witness for C5 at a concrete subscription update to the basic plan. -/
theorem c5_witness :
    ∃ t, (TenantService.update_tenant_subscription lifecycleDB 7 "basic"
        none none 100).1 = .ok t ∧
      ∃ p, TenantService.get_subscription_plan
            ((TenantService.update_tenant_subscription lifecycleDB 7 "basic"
                none none 100).2).plans t.plan.value = some p ∧
        t.enabled_modules ⊆ p.enabled_modules :=
  c5_enabled_modules_subset_of_plan.2.1 lifecycleDB 7 "basic" none none 100
    initechActive basicPlan TenantPlan.basic (by decide) (by decide)
    (by decide)

/-! Claim C7: router step equations and invariant -/

/-- Cache hit: get_tenant_engine returns the cached engine, state unchanged. -/
theorem get_tenant_engine_hit (st : RouterState) (t : String) (p : String × Nat)
    (h : st.engineFor? t = some p) :
    TenantDatabaseManager.get_tenant_engine st t = (p.2, st) := by
  unfold TenantDatabaseManager.get_tenant_engine
  rw [h]

/-- Cache miss: get_tenant_engine constructs one engine and installs it. -/
theorem get_tenant_engine_miss (st : RouterState) (t : String)
    (h : st.engineFor? t = none) :
    TenantDatabaseManager.get_tenant_engine st t
      = (st.next_engine,
          { st with
              tenant_engines := (t, st.next_engine) :: st.tenant_engines
              engines_created := t :: st.engines_created
              next_engine := st.next_engine + 1 }) := by
  unfold TenantDatabaseManager.get_tenant_engine
  rw [h]

/-- Session-factory cache hit: state unchanged. -/
theorem get_tenant_session_hit (st : RouterState) (t : String)
    (p : String × Nat) (h : st.makerFor? t = some p) :
    TenantDatabaseManager.get_tenant_session st t = (p.2, st) := by
  unfold TenantDatabaseManager.get_tenant_session
  rw [h]

/-- Session-factory miss with engine hit: only a factory is installed. -/
theorem get_tenant_session_miss_hit (st : RouterState) (t : String)
    (p : String × Nat) (hm : st.makerFor? t = none)
    (he : st.engineFor? t = some p) :
    TenantDatabaseManager.get_tenant_session st t
      = (p.2, { st with
          tenant_session_makers := (t, p.2) :: st.tenant_session_makers }) := by
  unfold TenantDatabaseManager.get_tenant_session
  rw [hm, get_tenant_engine_hit st t p he]

/-- Session-factory miss with engine miss: one engine is constructed and both
caches gain an entry for the slug. -/
theorem get_tenant_session_miss_miss (st : RouterState) (t : String)
    (hm : st.makerFor? t = none) (he : st.engineFor? t = none) :
    TenantDatabaseManager.get_tenant_session st t
      = (st.next_engine,
          { st with
              tenant_engines := (t, st.next_engine) :: st.tenant_engines
              tenant_session_makers :=
                (t, st.next_engine) :: st.tenant_session_makers
              engines_created := t :: st.engines_created
              next_engine := st.next_engine + 1 }) := by
  unfold TenantDatabaseManager.get_tenant_session
  rw [hm, get_tenant_engine_miss st t he]

/-- One atomic get_tenant_session step preserves the router invariant. -/
theorem routerInv_get_tenant_session (st : RouterState) (t s : String)
    (hInv : RouterInv s st) :
    RouterInv s ((TenantDatabaseManager.get_tenant_session st t).2) := by
  obtain ⟨h1, h2, h3, h4⟩ := hInv
  cases hm : st.makerFor? t with
  | some p =>
    rw [get_tenant_session_hit st t p hm]
    exact ⟨h1, h2, h3, h4⟩
  | none =>
    cases he : st.engineFor? t with
    | some p =>
      rw [get_tenant_session_miss_hit st t p hm he]
      refine ⟨h1, h2, h3, ?_⟩
      by_cases hts : t = s
      · subst hts
        intro _
        exact h3.mp (by rw [he]; rfl)
      · intro hmk
        apply h4
        unfold RouterState.makerFor? at hmk ⊢
        rw [List.find?_cons_of_neg _ (by simp [hts])] at hmk
        exact hmk
    | none =>
      rw [get_tenant_session_miss_miss st t hm he]
      by_cases hts : t = s
      · subst hts
        have h0 : st.createdFor t = 0 := by
          rcases Nat.lt_or_ge (st.createdFor t) 1 with h | h
          · omega
          · exfalso
            have h5 : st.createdFor t = 1 := by omega
            have h6 := h3.mpr h5
            rw [he] at h6
            simp at h6
        have h10 : st.enginesFor t = 0 := by rw [h1, h0]
        refine ⟨?_, ?_, ?_, ?_⟩
        · unfold RouterState.enginesFor at h10 ⊢
          unfold RouterState.createdFor at h0 ⊢
          simp [List.count_cons, List.filter_cons, h10, h0]
        · unfold RouterState.createdFor at h0 ⊢
          simp [List.count_cons, h0]
        · unfold RouterState.createdFor at h0 ⊢
          unfold RouterState.engineFor?
          simp [List.count_cons, h0]
        · intro _
          unfold RouterState.createdFor at h0 ⊢
          simp [List.count_cons, h0]
      · refine ⟨?_, ?_, ?_, ?_⟩
        · unfold RouterState.enginesFor RouterState.createdFor at h1 ⊢
          simp [List.count_cons, List.filter_cons, hts, h1]
        · unfold RouterState.createdFor at h2 ⊢
          simp [List.count_cons, hts, h2]
        · unfold RouterState.createdFor at h3 ⊢
          unfold RouterState.engineFor? at h3 ⊢
          rw [List.find?_cons_of_neg _ (by simp [hts]), List.count_cons]
          simpa [hts] using h3
        · intro hmk
          unfold RouterState.makerFor? at hmk h4
          rw [List.find?_cons_of_neg _ (by simp [hts])] at hmk
          unfold RouterState.createdFor at h4 ⊢
          simp [List.count_cons, hts]
          exact h4 hmk

/-- A get_tenant_session step for a different slug does not construct an
engine for s. -/
theorem createdFor_get_tenant_session_ne (st : RouterState) (t s : String)
    (hts : t ≠ s) :
    ((TenantDatabaseManager.get_tenant_session st t).2).createdFor s
      = st.createdFor s := by
  cases hm : st.makerFor? t with
  | some p => rw [get_tenant_session_hit st t p hm]
  | none =>
    cases he : st.engineFor? t with
    | some p =>
      rw [get_tenant_session_miss_hit st t p hm he]
      rfl
    | none =>
      rw [get_tenant_session_miss_miss st t hm he]
      unfold RouterState.createdFor
      simp [List.count_cons, hts]

/-- A get_tenant_session step for s itself leaves exactly one constructed
engine for s, given the invariant. -/
theorem createdFor_get_tenant_session_self (st : RouterState) (s : String)
    (hInv : RouterInv s st) :
    ((TenantDatabaseManager.get_tenant_session st s).2).createdFor s = 1 := by
  obtain ⟨h1, h2, h3, h4⟩ := hInv
  cases hm : st.makerFor? s with
  | some p =>
    rw [get_tenant_session_hit st s p hm]
    exact h4 (by rw [hm]; rfl)
  | none =>
    cases he : st.engineFor? s with
    | some p =>
      rw [get_tenant_session_miss_hit st s p hm he]
      exact h3.mp (by rw [he]; rfl)
    | none =>
      have h0 : st.createdFor s = 0 := by
        rcases Nat.lt_or_ge (st.createdFor s) 1 with h | h
        · omega
        · exfalso
          have h5 : st.createdFor s = 1 := by omega
          have h6 := h3.mpr h5
          rw [he] at h6
          simp at h6
      rw [get_tenant_session_miss_miss st s hm he]
      unfold RouterState.createdFor at h0 ⊢
      simp [List.count_cons, h0]

/-- Any interleaving of atomic get_tenant_session steps preserves the router
invariant. -/
theorem routerInv_run_sessions (calls : List String) (st : RouterState)
    (s : String) (hInv : RouterInv s st) :
    RouterInv s (TenantDatabaseManager.run_sessions st calls) := by
  induction calls generalizing st with
  | nil => exact hInv
  | cons t ts ih =>
    exact ih _ (routerInv_get_tenant_session st t s hInv)

/-- After a run that contains a call for s (or starts with one engine already
constructed for s), exactly one engine has ever been constructed for s. -/
theorem createdFor_run_sessions (calls : List String) (st : RouterState)
    (s : String) (hInv : RouterInv s st)
    (h : s ∈ calls ∨ st.createdFor s = 1) :
    (TenantDatabaseManager.run_sessions st calls).createdFor s = 1 := by
  induction calls generalizing st with
  | nil =>
    cases h with
    | inl h => cases h
    | inr h => exact h
  | cons t ts ih =>
    have hInv' := routerInv_get_tenant_session st t s hInv
    by_cases hts : t = s
    · subst hts
      exact ih _ hInv'
        (Or.inr (createdFor_get_tenant_session_self st t hInv))
    · cases h with
      | inl hmem =>
        rcases List.mem_cons.mp hmem with heq | hmem'
        · exact absurd heq.symm hts
        · exact ih _ hInv' (Or.inl hmem')
      | inr hone =>
        refine ih _ hInv' (Or.inr ?_)
        rw [createdFor_get_tenant_session_ne st t s hts]
        exact hone

/-- C7: for a previously-unseen slug (no cached engine, no cached session
factory, nothing ever constructed), any number N ≥ 1 of concurrent
get_tenant_session calls for it — modelled as an arbitrary sequential
interleaving of atomic steps, which the asyncio event loop guarantees because
the check-then-install section contains no suspension point — constructs
exactly one engine (pool) for the slug and installs exactly one cache entry
for it: no duplicate pool is ever constructed or leaked. -/
theorem c7_single_pool_per_slug
    (st : RouterState) (calls : List String) (s : String)
    (h1 : st.engineFor? s = none) (h2 : st.makerFor? s = none)
    (h3 : st.createdFor s = 0) (hmem : s ∈ calls) :
    (TenantDatabaseManager.run_sessions st calls).createdFor s = 1 ∧
    (TenantDatabaseManager.run_sessions st calls).enginesFor s = 1 := by
  have h0 : st.enginesFor s = 0 := by
    unfold RouterState.enginesFor
    unfold RouterState.engineFor? at h1
    rw [List.length_eq_zero, List.filter_eq_nil_iff]
    intro a ha
    simpa using List.find?_eq_none.mp h1 a ha
  have hInv : RouterInv s st := by
    refine ⟨by rw [h0, h3], by omega, ?_, ?_⟩
    · rw [h1, h3]
      simp
    · rw [h2]
      simp
  have hInv' := routerInv_run_sessions calls st s hInv
  have hc := createdFor_run_sessions calls st s hInv (Or.inl hmem)
  refine ⟨hc, ?_⟩
  rw [hInv'.1]
  exact hc

/-- Witness for C7: three calls for a cold slug construct exactly one pool. -/
theorem c7_witness :
    (TenantDatabaseManager.run_sessions {} ["acme", "acme", "acme"]).createdFor
        "acme" = 1 ∧
    (TenantDatabaseManager.run_sessions {} ["acme", "acme", "acme"]).enginesFor
        "acme" = 1 :=
  c7_single_pool_per_slug {} ["acme", "acme", "acme"] "acme"
    rfl rfl rfl (by simp)
